import Mathlib

/-!
Verification of `util/fptr_wlist.h` (Extended-DNSSEC-Validator, bundled
unbound-1.4.8): the function-pointer whitelist guard.

The repository ships the header `src/lib/unbound-1.4.8/util/fptr_wlist.h`,
which contains the `fptr_ok` assertion macro (lines 67-71) and the
declarations of one whitelist checker per callback category.  The checker
bodies (`fptr_wlist.c`) and the host's `fatal_exit` routine (`util/log.h`)
are not part of the provided sources, so those are modelled from the spec
where noted; everything about the macro text and the declared parameter
types comes straight from the header.

Modelling conventions:
  * a C function pointer value is a machine address, modelled as `Nat`
    (`0` is the null pointer);
  * a C `int` is modelled as `Int` (no arithmetic overflows anywhere in
    this code, so no modular reduction is needed);
  * `fatal_exit` never returns, so an execution either returns control
    (`ExecOutcome.ok`) or ends the process with an emitted diagnostic
    (`ExecOutcome.fatalExit`), carrying the formatted message as a
    character list.
-/

/-- Call-site information the C preprocessor substitutes into the
`fptr_ok` expansion: `__FILE__`, `__LINE__`, `__func__` and the
stringised check expression `#x`. -/
structure CallSite where
  file : String
  line : Nat
  func : String
  checkText : String
deriving DecidableEq, Repr

/-- Outcome of running a code fragment that may call `fatal_exit`:
either control returns to the caller with a value, or the process has
been terminated after emitting the diagnostic message.  `fatal_exit` is
declared in `util/log.h`, outside the provided sources; modelled from
the spec as the host's report-and-terminate primitive that never
returns control. -/
inductive ExecOutcome (α : Type) where
  | ok : α → ExecOutcome α
  | fatalExit : List Char → ExecOutcome α
deriving DecidableEq, Repr

/-- The diagnostic text produced by the `fatal_exit` call inside
`fptr_ok` (header line 69): the format string
`"%s:%d: %s: pointer whitelist %s failed"` applied to `__FILE__`,
`__LINE__`, `__func__` and the stringised expression `#x`. -/
def fatal_exit_msg (site : CallSite) : List Char :=
  site.file.data ++ (":").data ++ (toString site.line).data ++ (": ").data
    ++ site.func.data ++ (": pointer whitelist ").data
    ++ site.checkText.data ++ (" failed").data

/-- The `fptr_ok` macro, header lines 67-71:
`do { if(!(x)) fatal_exit("%s:%d: %s: pointer whitelist %s failed",
__FILE__, __LINE__, __func__, #x); } while(0);`.
In C, `!(x)` is true exactly when the `int` expression `x` equals zero,
so the `fatal_exit` branch runs iff `x = 0`; otherwise the macro body
does nothing and control falls through. -/
def fptr_ok (site : CallSite) (x : Int) : ExecOutcome Unit :=
  if x = 0 then ExecOutcome.fatalExit (fatal_exit_msg site)
  else ExecOutcome.ok ()

/-- The C standard `assert` mechanism, for contrast with `fptr_ok`:
its expansion is empty when the translation unit is compiled with
`NDEBUG` defined, so the check disappears in optimised builds. -/
def c_assert (ndebug : Bool) (site : CallSite) (x : Int) : ExecOutcome Unit :=
  if ndebug then ExecOutcome.ok ()
  else if x = 0 then ExecOutcome.fatalExit (fatal_exit_msg site)
  else ExecOutcome.ok ()

/-- Compilation of the `fptr_ok` macro under a given `NDEBUG` setting.
The macro text at header lines 67-71 sits under no `#ifdef`/`#ifndef`
guard whatsoever (the only conditional in the header is the
`UTIL_FPTR_WLIST_H` include guard), so the preprocessor produces the
same expansion whether or not `NDEBUG` is defined; the flag argument is
therefore unused. -/
def fptr_ok_compiled (_ndebug : Bool) (site : CallSite) (x : Int) :
    ExecOutcome Unit :=
  fptr_ok site x

/-- One callback category per checker declared in the header
(lines 79-315), named after its `fptr_whitelist_*` function. -/
inductive CallbackCategory where
  | comm_point
  | comm_point_raw
  | comm_timer
  | comm_signal
  | event
  | pending_udp
  | pending_tcp
  | serviced_query
  | rbtree_cmp
  | hash_sizefunc
  | hash_compfunc
  | hash_delkeyfunc
  | hash_deldatafunc
  | hash_markdelfunc
  | modenv_send_query
  | modenv_detach_subs
  | modenv_attach_sub
  | modenv_kill_sub
  | modenv_detect_cycle
  | mod_init
  | mod_deinit
  | mod_operate
  | mod_inform_super
  | mod_clear
  | mod_get_mem
  | alloc_cleanup
  | tube_listen
  | mesh_cb
  | print_func
deriving DecidableEq, Repr, Fintype

/-- The static C type of a checker's parameter, one constructor per
distinct type spelled in the header's declarations. -/
inductive CParamType where
  | commPointCallbackPtr       -- comm_point_callback_t*
  | voidFnVoidPtr              -- void (*)(void*)
  | voidFnIntVoidPtr           -- void (*)(int, void*)
  | voidFnIntShortVoidPtr      -- void (*)(int, short, void*)
  | cmpConstVoidFn             -- int (*)(const void*, const void*)
  | lruhashSizefuncT           -- lruhash_sizefunc_t
  | lruhashCompfuncT           -- lruhash_compfunc_t
  | lruhashDelkeyfuncT         -- lruhash_delkeyfunc_t
  | lruhashDeldatafuncT        -- lruhash_deldatafunc_t
  | lruhashMarkdelfuncT        -- lruhash_markdelfunc_t
  | sendQueryFn                -- struct outbound_entry* (*)(uint8_t*, ...)
  | voidFnQstatePtr            -- void (*)(struct module_qstate*)
  | attachSubFn                -- int (*)(qstate, qinfo, uint16_t, int, qstate**)
  | detectCycleFn              -- int (*)(qstate, qinfo, uint16_t, int)
  | modInitFn                  -- int (*)(struct module_env*, int)
  | modDeinitFn                -- void (*)(struct module_env*, int)
  | modOperateFn               -- void (*)(qstate, enum module_ev, int, outbound_entry*)
  | informSuperFn              -- void (*)(qstate, int, qstate)
  | modClearFn                 -- void (*)(struct module_qstate*, int)
  | getMemFn                   -- size_t (*)(struct module_env*, int)
  | tubeCallbackPtr            -- tube_callback_t*
  | meshCbFuncT                -- mesh_cb_func_t
  | printFuncFn                -- void (*)(char*, void*)
deriving DecidableEq, Repr

/-- The parameter type of each category's checker, transcribed from the
declarations at header lines 79-315. -/
def checkerParamType : CallbackCategory → CParamType
  | .comm_point => .commPointCallbackPtr          -- line 79
  | .comm_point_raw => .commPointCallbackPtr      -- line 87
  | .comm_timer => .voidFnVoidPtr                 -- line 95
  | .comm_signal => .voidFnIntVoidPtr             -- line 103
  | .event => .voidFnIntShortVoidPtr              -- line 112
  | .pending_udp => .commPointCallbackPtr         -- line 120
  | .pending_tcp => .commPointCallbackPtr         -- line 128
  | .serviced_query => .commPointCallbackPtr      -- line 136
  | .rbtree_cmp => .cmpConstVoidFn                -- line 144
  | .hash_sizefunc => .lruhashSizefuncT           -- line 152
  | .hash_compfunc => .lruhashCompfuncT           -- line 160
  | .hash_delkeyfunc => .lruhashDelkeyfuncT       -- line 168
  | .hash_deldatafunc => .lruhashDeldatafuncT     -- line 176
  | .hash_markdelfunc => .lruhashMarkdelfuncT     -- line 184
  | .modenv_send_query => .sendQueryFn            -- line 192
  | .modenv_detach_subs => .voidFnQstatePtr       -- line 204
  | .modenv_attach_sub => .attachSubFn            -- line 213
  | .modenv_kill_sub => .voidFnQstatePtr          -- line 223
  | .modenv_detect_cycle => .detectCycleFn        -- line 231
  | .mod_init => .modInitFn                       -- line 241
  | .mod_deinit => .modDeinitFn                   -- line 249
  | .mod_operate => .modOperateFn                 -- line 257
  | .mod_inform_super => .informSuperFn           -- line 266
  | .mod_clear => .modClearFn                     -- line 275
  | .mod_get_mem => .getMemFn                     -- line 284
  | .alloc_cleanup => .voidFnVoidPtr              -- line 292
  | .tube_listen => .tubeCallbackPtr              -- line 300
  | .mesh_cb => .meshCbFuncT                      -- line 308
  | .print_func => .printFuncFn                   -- line 315

/-- A whitelist registry: one list of registered function identities
(addresses) per callback category.  Modelled from the spec: the checker
bodies and whitelist tables live in `fptr_wlist.c`, which is not among
the provided sources; per the spec each category owns a fixed,
compile-time list of function addresses. -/
structure FptrRegistry where
  lists : CallbackCategory → List Nat

/-- Linear scan of one whitelist, short-circuiting on the first match.
Modelled from the spec: each checker body in `fptr_wlist.c` (not among
the provided sources) compares the candidate against each registered
address in turn and returns 1 on a match, 0 after exhausting the list
(the header doc comments, lines 76-78, fix the contract: return false
iff not in the whitelist). -/
def wlist_check : List Nat → Nat → Int
  | [], _ => 0
  | e :: rest, p => if p = e then 1 else wlist_check rest p

/-- A category's checker (`fptr_whitelist_comm_point`, ..., header
lines 79-315): membership scan of that category's own list only. -/
def fptr_whitelist (R : FptrRegistry) (c : CallbackCategory) (p : Nat) : Int :=
  wlist_check (R.lists c) p

/-- A checker invocation as a state transformer over the registry,
returning the `int` result together with the registry afterwards.
Modelled from the spec: the checkers only read the whitelist tables and
never write them. -/
def fptr_whitelist_run (R : FptrRegistry) (c : CallbackCategory) (p : Nat) :
    Int × FptrRegistry :=
  (fptr_whitelist R c p, R)

/-- The outcome at a guarded call site: either the verified pointer is
invoked, or the process died inside `fptr_ok`. -/
inductive CallEvent where
  | invoked : Nat → CallEvent
  | fatal : List Char → CallEvent
deriving DecidableEq, Repr

/-- The call-site convention from the header's file comment
(lines 39-52): `fptr_ok(fptr_whitelist_xxx(fptr));` immediately before
`(*fptr)(...)`, so the callback runs only when the checker accepted it. -/
def checked_invoke (R : FptrRegistry) (c : CallbackCategory) (site : CallSite)
    (p : Nat) : CallEvent :=
  match fptr_ok site (fptr_whitelist R c p) with
  | ExecOutcome.ok _ => CallEvent.invoked p
  | ExecOutcome.fatalExit m => CallEvent.fatal m

/-- The `fptr_ok` macro applied to an argument expression with side
effects: the expression is written once in the macro body (inside
`if(!(x))`; the other occurrence `#x` is compile-time stringisation),
so expansion evaluates it exactly once. -/
def fptr_ok_eval {σ : Type} (site : CallSite) (expr : σ → Int × σ) (s : σ) :
    ExecOutcome Unit × σ :=
  let r := expr s
  if r.1 = 0 then (ExecOutcome.fatalExit (fatal_exit_msg site), r.2)
  else (ExecOutcome.ok (), r.2)

/-- A concrete registry instance for witnesses.  Modelled from the
spec: the real tables are in `fptr_wlist.c` (not among the provided
sources); per the spec every category holds a small non-empty set of
distinct function addresses, never null.  The `rbtree_cmp` entries
stand for `order_lock_cmp`, `codeline_cmp` and `replay_var_compare`,
which the header itself declares as whitelisted comparators
(lines 317-336); `mod_init` holds two entries for the two module
implementations of the spec's scenario 2. -/
def modelRegistry : FptrRegistry :=
  ⟨fun c => match c with
    | .comm_point => [11, 12, 13, 14]
    | .comm_point_raw => [21]
    | .comm_timer => [31, 32]
    | .comm_signal => [41]
    | .event => [51, 52, 53]
    | .pending_udp => [61]
    | .pending_tcp => [71]
    | .serviced_query => [81]
    | .rbtree_cmp => [91, 92, 93]
    | .hash_sizefunc => [101, 102]
    | .hash_compfunc => [111, 112]
    | .hash_delkeyfunc => [121, 122]
    | .hash_deldatafunc => [131, 132]
    | .hash_markdelfunc => [141]
    | .modenv_send_query => [151]
    | .modenv_detach_subs => [161]
    | .modenv_attach_sub => [171]
    | .modenv_kill_sub => [181]
    | .modenv_detect_cycle => [191]
    | .mod_init => [201, 202]
    | .mod_deinit => [211, 212]
    | .mod_operate => [221, 222]
    | .mod_inform_super => [231, 232]
    | .mod_clear => [241, 242]
    | .mod_get_mem => [251, 252]
    | .alloc_cleanup => [261]
    | .tube_listen => [271]
    | .mesh_cb => [281]
    | .print_func => [291, 292]⟩

/-- Registry construction constraints stated by the spec: entries are
addresses of actual functions (never the null pointer). -/
abbrev RegistryNonNull (R : FptrRegistry) : Prop :=
  ∀ c : CallbackCategory, ∀ p ∈ R.lists c, p ≠ 0

/-- A registry differing from `modelRegistry` in the `comm_timer` list
only; used to exhibit that a checker's verdict ignores the other
categories' lists. -/
def alteredRegistry : FptrRegistry :=
  ⟨fun c => if c = CallbackCategory.comm_timer then [99]
            else modelRegistry.lists c⟩

/-- A sample effectful argument expression over a `Nat` state: returns
the passing value 1 and increments the state, so evaluation counts are
visible in the final state. -/
def tickExpr : Nat → Int × Nat := fun n => (1, n + 1)

/-- A sample call site for witnesses. -/
def site0 : CallSite :=
  ⟨"util/netevent.c", 655, "comm_point_udp_callback",
   "fptr_whitelist_comm_point(p->callback)"⟩

/-- Linear scan finds every registered entry. -/
theorem wlist_check_of_mem (l : List Nat) (p : Nat) (h : p ∈ l) :
    wlist_check l p = 1 := by
  induction l with
  | nil => cases h
  | cons e rest ih =>
    rw [wlist_check]
    rcases List.mem_cons.mp h with h1 | h2
    · simp [h1]
    · by_cases he : p = e
      · simp [he]
      · simp [he, ih h2]

/-- Linear scan rejects everything not registered. -/
theorem wlist_check_of_not_mem (l : List Nat) (p : Nat) (h : p ∉ l) :
    wlist_check l p = 0 := by
  induction l with
  | nil => rfl
  | cons e rest ih =>
    rw [wlist_check]
    have he : p ≠ e := fun hpe => h (hpe ▸ List.mem_cons_self e rest)
    have hr : p ∉ rest := fun hm => h (List.mem_cons_of_mem e hm)
    simp [he, ih hr]

example : fptr_whitelist modelRegistry .comm_point 12 = 1 := by decide
example : fptr_whitelist modelRegistry .comm_point 21 = 0 := by decide

/-- A list stays an infix after extending on the left. -/
theorem isInfix_append_left_ext (a b c : List Char) (h : b <:+: c) :
    b <:+: a ++ c := by
  obtain ⟨s, t, rfl⟩ := h
  exact ⟨a ++ s, t, by simp [List.append_assoc]⟩

/-- The diagnostic message, reassociated to the right. -/
theorem fatal_exit_msg_eq (site : CallSite) :
    fatal_exit_msg site =
      site.file.data ++ ((":").data ++ ((toString site.line).data ++
        ((": ").data ++ (site.func.data ++ ((": pointer whitelist ").data ++
          (site.checkText.data ++ (" failed").data)))))) := by
  simp [fatal_exit_msg, List.append_assoc]

/-- C1: for every check expression `x` built from a checker verdict, if
`x` evaluates to false (zero) then `fptr_ok` invokes `fatal_exit` and
control never returns to the caller, so the unverified pointer is never
invoked after a negative checker result. -/
theorem fptr_ok_never_returns_on_false (R : FptrRegistry)
    (c : CallbackCategory) (site : CallSite) (p : Nat)
    (h : fptr_whitelist R c p = 0) :
    fptr_ok site (fptr_whitelist R c p) =
      ExecOutcome.fatalExit (fatal_exit_msg site) ∧
    (∀ u : Unit, fptr_ok site (fptr_whitelist R c p) ≠ ExecOutcome.ok u) ∧
    ∀ q : Nat, checked_invoke R c site p ≠ CallEvent.invoked q := by
  refine ⟨by simp [fptr_ok, h], by simp [fptr_ok, h], ?_⟩
  intro q
  simp [checked_invoke, fptr_ok, h]

/-- Witness for C1 at the null pointer against the model registry. -/
theorem fptr_ok_never_returns_on_false_witness :
    fptr_whitelist modelRegistry CallbackCategory.comm_point 0 = 0 ∧
    (fptr_ok site0 (fptr_whitelist modelRegistry CallbackCategory.comm_point 0) =
        ExecOutcome.fatalExit (fatal_exit_msg site0) ∧
      (∀ u : Unit,
        fptr_ok site0 (fptr_whitelist modelRegistry CallbackCategory.comm_point 0) ≠
          ExecOutcome.ok u) ∧
      ∀ q : Nat,
        checked_invoke modelRegistry CallbackCategory.comm_point site0 0 ≠
          CallEvent.invoked q) :=
  ⟨by decide, fptr_ok_never_returns_on_false modelRegistry
    CallbackCategory.comm_point site0 0 (by decide)⟩

/-- C2: for every category and every function identity registered in
that category's whitelist, the checker returns true (nonzero, namely 1)
on that identity's address. -/
theorem fptr_whitelist_accepts_registered (R : FptrRegistry)
    (c : CallbackCategory) (p : Nat) (h : p ∈ R.lists c) :
    fptr_whitelist R c p = 1 ∧ fptr_whitelist R c p ≠ 0 := by
  have h1 : fptr_whitelist R c p = 1 := wlist_check_of_mem _ _ h
  exact ⟨h1, by rw [h1]; decide⟩

/-- Witness for C2: a registered `rbtree_cmp` comparator is accepted. -/
theorem fptr_whitelist_accepts_registered_witness :
    92 ∈ modelRegistry.lists CallbackCategory.rbtree_cmp ∧
    (fptr_whitelist modelRegistry CallbackCategory.rbtree_cmp 92 = 1 ∧
     fptr_whitelist modelRegistry CallbackCategory.rbtree_cmp 92 ≠ 0) :=
  ⟨by decide, fptr_whitelist_accepts_registered modelRegistry
    CallbackCategory.rbtree_cmp 92 (by decide)⟩

/-- C3: for every category, the checker returns false (zero) on every
pointer not in that category's whitelist, including the null pointer
and a pointer registered only under a different category. -/
theorem fptr_whitelist_rejects_nonmember (R : FptrRegistry)
    (c c2 : CallbackCategory) (p q : Nat)
    (hR : RegistryNonNull R) (hp : p ∉ R.lists c)
    (_hq : q ∈ R.lists c2) (hqc : q ∉ R.lists c) :
    fptr_whitelist R c p = 0 ∧ fptr_whitelist R c 0 = 0 ∧
    fptr_whitelist R c q = 0 := by
  have h0 : (0 : Nat) ∉ R.lists c := fun hm => (hR c 0 hm) rfl
  exact ⟨wlist_check_of_not_mem _ _ hp, wlist_check_of_not_mem _ _ h0,
    wlist_check_of_not_mem _ _ hqc⟩

/-- Witness for C3: `comm_signal`'s checker rejects an unregistered
address, the null pointer, and a `comm_timer`-only address. -/
theorem fptr_whitelist_rejects_nonmember_witness :
    RegistryNonNull modelRegistry ∧
    999 ∉ modelRegistry.lists CallbackCategory.comm_signal ∧
    31 ∈ modelRegistry.lists CallbackCategory.comm_timer ∧
    31 ∉ modelRegistry.lists CallbackCategory.comm_signal ∧
    (fptr_whitelist modelRegistry CallbackCategory.comm_signal 999 = 0 ∧
     fptr_whitelist modelRegistry CallbackCategory.comm_signal 0 = 0 ∧
     fptr_whitelist modelRegistry CallbackCategory.comm_signal 31 = 0) :=
  ⟨by decide, by decide, by decide, by decide,
   fptr_whitelist_rejects_nonmember modelRegistry CallbackCategory.comm_signal
     CallbackCategory.comm_timer 999 31 (by decide) (by decide) (by decide)
     (by decide)⟩

/-- C4: on failure, the diagnostic emitted by `fptr_ok` contains the
source file, the line number, the enclosing function name and the text
of the failing check expression. -/
theorem fptr_ok_diagnostic_contents (site : CallSite) (x : Int)
    (h : x = 0) :
    fptr_ok site x = ExecOutcome.fatalExit (fatal_exit_msg site) ∧
    site.file.data <:+: fatal_exit_msg site ∧
    (toString site.line).data <:+: fatal_exit_msg site ∧
    site.func.data <:+: fatal_exit_msg site ∧
    site.checkText.data <:+: fatal_exit_msg site := by
  subst h
  rw [fatal_exit_msg_eq]
  refine ⟨by simp [fptr_ok, fatal_exit_msg_eq], ?_, ?_, ?_, ?_⟩
  · exact (List.prefix_append _ _).isInfix
  · exact isInfix_append_left_ext _ _ _ (isInfix_append_left_ext _ _ _
      ((List.prefix_append _ _).isInfix))
  · exact isInfix_append_left_ext _ _ _ (isInfix_append_left_ext _ _ _
      (isInfix_append_left_ext _ _ _ (isInfix_append_left_ext _ _ _
        ((List.prefix_append _ _).isInfix))))
  · exact isInfix_append_left_ext _ _ _ (isInfix_append_left_ext _ _ _
      (isInfix_append_left_ext _ _ _ (isInfix_append_left_ext _ _ _
        (isInfix_append_left_ext _ _ _ (isInfix_append_left_ext _ _ _
          ((List.prefix_append _ _).isInfix))))))

/-- Witness for C4 at a concrete call site. -/
theorem fptr_ok_diagnostic_contents_witness :
    (0 : Int) = 0 ∧
    (fptr_ok site0 0 = ExecOutcome.fatalExit (fatal_exit_msg site0) ∧
     site0.file.data <:+: fatal_exit_msg site0 ∧
     (toString site0.line).data <:+: fatal_exit_msg site0 ∧
     site0.func.data <:+: fatal_exit_msg site0 ∧
     site0.checkText.data <:+: fatal_exit_msg site0) :=
  ⟨rfl, fptr_ok_diagnostic_contents site0 0 rfl⟩

/-- C5: `fptr_ok` carries no conditional-compilation guard, so its
compiled behaviour is independent of the `NDEBUG` flag and the fatal
branch on a zero argument fires even in builds where the C standard
`assert` has been compiled out. -/
theorem fptr_ok_active_unconditionally (site : CallSite) :
    (∀ (nd nd2 : Bool) (x : Int),
      fptr_ok_compiled nd site x = fptr_ok_compiled nd2 site x) ∧
    (∀ nd : Bool, fptr_ok_compiled nd site 0 =
      ExecOutcome.fatalExit (fatal_exit_msg site)) ∧
    c_assert true site 0 = ExecOutcome.ok () := by
  refine ⟨fun nd nd2 x => rfl, fun nd => ?_, rfl⟩
  simp [fptr_ok_compiled, fptr_ok]

/-- C6: a checker invocation leaves the registry unchanged and two
consecutive invocations with the same input return the same result. -/
theorem fptr_whitelist_pure_deterministic (R : FptrRegistry)
    (c : CallbackCategory) (p : Nat) :
    (fptr_whitelist_run R c p).2 = R ∧
    (fptr_whitelist_run (fptr_whitelist_run R c p).2 c p).1 =
      (fptr_whitelist_run R c p).1 :=
  ⟨rfl, rfl⟩

/-- Counterexample to C7: the checkers for `comm_point_raw` (header
line 87) and `serviced_query` (header line 136) are distinct categories
whose parameters have the same static C type `comm_point_callback_t*`,
so per-checker parameter types are not distinct and the type system
does not stop a pointer of one of these categories from being passed to
the other's checker. -/
theorem checker_param_type_shared :
    CallbackCategory.comm_point_raw ≠ CallbackCategory.serviced_query ∧
    checkerParamType CallbackCategory.comm_point_raw =
      checkerParamType CallbackCategory.serviced_query := by
  decide

/-- C7 (amended): each category's checker consults only its own
category's whitelist — its verdict is unchanged by any modification of
the other categories' lists. -/
theorem fptr_whitelist_own_list_only (R R2 : FptrRegistry)
    (c : CallbackCategory) (p : Nat) (h : R.lists c = R2.lists c) :
    fptr_whitelist R c p = fptr_whitelist R2 c p := by
  rw [fptr_whitelist, fptr_whitelist, h]

/-- Witness for amended C7: the `comm_point` verdict is the same in the
model registry and in a registry whose `comm_timer` list was replaced. -/
theorem fptr_whitelist_own_list_only_witness :
    modelRegistry.lists CallbackCategory.comm_point =
      alteredRegistry.lists CallbackCategory.comm_point ∧
    fptr_whitelist modelRegistry CallbackCategory.comm_point 11 =
      fptr_whitelist alteredRegistry CallbackCategory.comm_point 11 :=
  ⟨by decide, fptr_whitelist_own_list_only modelRegistry alteredRegistry
    CallbackCategory.comm_point 11 (by decide)⟩

/-- C8: every category's whitelist in the spec-modelled registry is
non-empty and small (1 to 6 entries, under 10). -/
theorem fptr_whitelists_nonempty_small :
    ∀ c : CallbackCategory, modelRegistry.lists c ≠ [] ∧
      1 ≤ (modelRegistry.lists c).length ∧
      (modelRegistry.lists c).length ≤ 6 ∧
      (modelRegistry.lists c).length < 10 := by
  decide

/-- C9: the macro body mentions `x` once (the `#x` occurrence is
compile-time stringisation), so the argument expression is evaluated
exactly once — the final state is the state after a single evaluation —
and a passing value causes no diagnostic, no termination and no other
state change. -/
theorem fptr_ok_single_evaluation {σ : Type} (site : CallSite)
    (expr : σ → Int × σ) (s : σ) (h : (expr s).1 ≠ 0) :
    (∀ t : σ, (fptr_ok_eval site expr t).2 = (expr t).2) ∧
    fptr_ok_eval site expr s = (ExecOutcome.ok (), (expr s).2) := by
  constructor
  · intro t
    by_cases ht : (expr t).1 = 0 <;> simp [fptr_ok_eval, ht]
  · simp [fptr_ok_eval, h]

/-- Witness for C9: a passing effectful argument over a `Nat` counter
state is evaluated exactly once. -/
theorem fptr_ok_single_evaluation_witness :
    (tickExpr 0).1 ≠ 0 ∧
    ((∀ t : Nat, (fptr_ok_eval site0 tickExpr t).2 = (tickExpr t).2) ∧
     fptr_ok_eval site0 tickExpr 0 = (ExecOutcome.ok (), (tickExpr 0).2)) :=
  ⟨by decide, fptr_ok_single_evaluation site0 tickExpr 0 (by decide)⟩

/-- C10: the guard follows the C integer-truth convention — any nonzero
`int` (positive or negative) passes, and exactly the value zero takes
the fatal branch. -/
theorem fptr_ok_c_truth_convention (site : CallSite) (x : Int)
    (h : x ≠ 0) :
    fptr_ok site x = ExecOutcome.ok () ∧
    fptr_ok site 0 = ExecOutcome.fatalExit (fatal_exit_msg site) := by
  rw [fptr_ok, fptr_ok]
  simp [h]

/-- Witness for C10 at the negative nonzero value -7. -/
theorem fptr_ok_c_truth_convention_witness :
    (-7 : Int) ≠ 0 ∧
    (fptr_ok site0 (-7) = ExecOutcome.ok () ∧
     fptr_ok site0 0 = ExecOutcome.fatalExit (fatal_exit_msg site0)) :=
  ⟨by decide, fptr_ok_c_truth_convention site0 (-7) (by decide)⟩
